import Mathlib

/-!
Verification of the deep-link "app or store" detection heuristics.

The repository contains several variants of the same detection race:

* `tryOpenApp` (hand-rolled promise with a `done` flag, listeners for
  visibilitychange / pagehide / blur, a timeout timer, and an optional
  hidden iframe with its own removal timer);
* `openApp` (the production page: visibilitychange / pagehide listeners,
  an `opened` flag, a fixed 2500 ms timer that removes the listeners and
  resolves, and on Android an iframe removed by an independent 1000 ms
  timer), together with `redirectToStore` and `main`;
* `MobileAppDetector.detectApp` with platform dispatch, and its
  `detectIOSApp` / `detectAndroidApp` / `detectGenericMobile` strategies.

Each model below is a direct shallow embedding of one of those functions:
state records mirror the closure variables, and a step function mirrors
the event handlers and timer callbacks.  Event traces carry the delivery
time of each callback; validity predicates encode the host guarantee
that a timer never fires before its scheduled delay.
-/

/-! ### Model of `tryOpenApp` (src/unnamed/part_000, lines 1-44) -/

/-- Callbacks that the host can deliver to a `tryOpenApp` session:
the three listeners, the timeout timer, and the independent iframe
removal timer scheduled at `timeout + 500`. -/
inductive TOEvent
  | visibilitychange
  | pagehide
  | blur (visibilityHidden : Bool)
  | timeoutFire
  | iframeRemoveFire
deriving Repr, DecidableEq

/-- Closure state of one `tryOpenApp` session.  `resolved` records the
first value passed to `resolve` together with its delivery time. -/
structure TryOpenState where
  done : Bool
  listenersAttached : Bool
  timerActive : Bool
  iframeAttached : Bool
  iframeTimerActive : Bool
  resolved : Option (Nat × Bool)
deriving Repr, DecidableEq

/-- The `finish` helper of `tryOpenApp`: check-and-set the `done` flag,
run `cleanup` (remove the three listeners, clear the timeout timer) and
resolve.  The iframe and its removal timer are deliberately untouched. -/
def finishTO (t : Nat) (v : Bool) (s : TryOpenState) : TryOpenState :=
  if s.done then s
  else { s with done := true, listenersAttached := false, timerActive := false,
                resolved := some (t, v) }

/-- One callback delivery to a `tryOpenApp` session.  Removed listeners
and cleared timers never run; `onBlur` additionally checks
`document.visibilityState === "hidden"`. -/
def stepTO (s : TryOpenState) : Nat × TOEvent → TryOpenState
  | (t, .visibilitychange) => if s.listenersAttached then finishTO t true s else s
  | (t, .pagehide) => if s.listenersAttached then finishTO t true s else s
  | (t, .blur hid) =>
      if s.listenersAttached then (if hid then finishTO t true s else s) else s
  | (t, .timeoutFire) => if s.timerActive then finishTO t false s else s
  | (_, .iframeRemoveFire) =>
      if s.iframeTimerActive then
        { s with iframeAttached := false, iframeTimerActive := false }
      else s

/-- State right after `tryOpenApp` returns its promise: listeners added,
timer started, and (for `openMethod = "iframe"`) the iframe appended and
its removal timer scheduled. -/
def initTO (useIframe : Bool) : TryOpenState :=
  { done := false, listenersAttached := true, timerActive := true,
    iframeAttached := useIframe, iframeTimerActive := useIframe, resolved := none }

/-- Deliver a whole trace of callbacks to a `tryOpenApp` session. -/
def runTO : TryOpenState → List (Nat × TOEvent) → TryOpenState :=
  List.foldl stepTO

/-- Host timing guarantee for `tryOpenApp` with timeout `T`: the timeout
timer fires no earlier than `T`, the iframe removal timer no earlier than
`T + 500`. -/
def ValidTO (T : Nat) (tr : List (Nat × TOEvent)) : Prop :=
  ∀ p ∈ tr, (p.2 = TOEvent.timeoutFire → T ≤ p.1) ∧
    (p.2 = TOEvent.iframeRemoveFire → T + 500 ≤ p.1)

/-- A trace in which no foreground-loss signal is ever delivered: only
timer callbacks, plus blur events while the page is still visible. -/
def NoSigTO (tr : List (Nat × TOEvent)) : Prop :=
  ∀ p ∈ tr, p.2 = TOEvent.timeoutFire ∨ p.2 = TOEvent.iframeRemoveFire ∨
    p.2 = TOEvent.blur false

/-- An armed `tryOpenApp` session with arbitrary iframe bookkeeping. -/
def armedTO (i it : Bool) : TryOpenState :=
  { done := false, listenersAttached := true, timerActive := true,
    iframeAttached := i, iframeTimerActive := it, resolved := none }

theorem initTO_eq_armedTO (m : Bool) : initTO m = armedTO m m := rfl

/-- Once the `done` flag is set, no later callback changes the resolved
outcome, and the flag stays set. -/
theorem stepTO_done (s : TryOpenState) (e : Nat × TOEvent) (h : s.done = true) :
    (stepTO s e).done = true ∧ (stepTO s e).resolved = s.resolved := by
  obtain ⟨t, ev⟩ := e
  cases ev <;> simp only [stepTO, finishTO, h, if_true] <;>
    (split <;> simp [h])

/-- Trace version of `stepTO_done`. -/
theorem runTO_done (tr : List (Nat × TOEvent)) :
    ∀ s : TryOpenState, s.done = true →
      (runTO s tr).done = true ∧ (runTO s tr).resolved = s.resolved := by
  induction tr with
  | nil => intro s h; exact ⟨h, rfl⟩
  | cons e tr ih =>
    intro s h
    have h1 := stepTO_done s e h
    have h2 := ih (stepTO s e) h1.1
    exact ⟨h2.1, h2.2.trans h1.2⟩

/-! ### Model of `openApp` (src/unnamed/part_001, lines 32-65) -/

/-- Callbacks the host can deliver to an `openApp` session: the two
`detectOpen` listeners (each seeing the current `document.hidden`), the
fixed 2500 ms timer, and the Android iframe removal timer (1000 ms). -/
inductive OAEvent
  | visibility (hidden : Bool)
  | pagehide (hidden : Bool)
  | timeoutFire
  | iframeRemoveFire
deriving Repr, DecidableEq

/-- Closure state of one `openApp` session. -/
structure OpenAppState where
  opened : Bool
  listenersAttached : Bool
  timerActive : Bool
  iframeAttached : Bool
  iframeTimerActive : Bool
  resolved : Option (Nat × Bool)
deriving Repr, DecidableEq

/-- `resolve(v)` on the promise: only the first call is recorded. -/
def resolveOA (t : Nat) (v : Bool) (s : OpenAppState) : OpenAppState :=
  { s with resolved := match s.resolved with
      | some r => some r
      | none => some (t, v) }

/-- The `detectOpen` handler: if the page is hidden, set `opened` and
resolve `true`.  It neither removes the listeners nor clears the timer. -/
def detectOpenOA (t : Nat) (hidden : Bool) (s : OpenAppState) : OpenAppState :=
  if s.listenersAttached then
    if hidden then resolveOA t true { s with opened := true } else s
  else s

/-- One callback delivery to an `openApp` session.  The 2500 ms timer
removes both listeners and resolves with the current `opened` value; it
is never cleared by anyone. -/
def stepOA (s : OpenAppState) : Nat × OAEvent → OpenAppState
  | (t, .visibility hid) => detectOpenOA t hid s
  | (t, .pagehide hid) => detectOpenOA t hid s
  | (t, .timeoutFire) =>
      if s.timerActive then
        resolveOA t s.opened { s with timerActive := false, listenersAttached := false }
      else s
  | (_, .iframeRemoveFire) =>
      if s.iframeTimerActive then
        { s with iframeAttached := false, iframeTimerActive := false }
      else s

/-- State right after `openApp` returns its promise; on Android an
iframe was appended and its 1000 ms removal timer scheduled. -/
def initOA (android : Bool) : OpenAppState :=
  { opened := false, listenersAttached := true, timerActive := true,
    iframeAttached := android, iframeTimerActive := android, resolved := none }

/-- Deliver a whole trace of callbacks to an `openApp` session. -/
def runOA : OpenAppState → List (Nat × OAEvent) → OpenAppState :=
  List.foldl stepOA

/-- Host timing guarantee for `openApp`: the main timer fires no earlier
than 2500 ms, the iframe removal timer no earlier than 1000 ms. -/
def ValidOA (tr : List (Nat × OAEvent)) : Prop :=
  ∀ p ∈ tr, (p.2 = OAEvent.timeoutFire → 2500 ≤ p.1) ∧
    (p.2 = OAEvent.iframeRemoveFire → 1000 ≤ p.1)

/-- A trace in which no foreground-loss signal is ever delivered: timer
callbacks only, plus visibility/pagehide events while still visible. -/
def NoSigOA (tr : List (Nat × OAEvent)) : Prop :=
  ∀ p ∈ tr, p.2 = OAEvent.timeoutFire ∨ p.2 = OAEvent.iframeRemoveFire ∨
    p.2 = OAEvent.visibility false ∨ p.2 = OAEvent.pagehide false

/-- An armed `openApp` session with arbitrary iframe bookkeeping. -/
def armedOA (i it : Bool) : OpenAppState :=
  { opened := false, listenersAttached := true, timerActive := true,
    iframeAttached := i, iframeTimerActive := it, resolved := none }

theorem initOA_eq_armedOA (a : Bool) : initOA a = armedOA a a := rfl

/-- A settled promise keeps its first value through any later callback. -/
theorem stepOA_resolved (s : OpenAppState) (e : Nat × OAEvent) (x : Nat × Bool)
    (h : s.resolved = some x) : (stepOA s e).resolved = some x := by
  obtain ⟨t, ev⟩ := e
  cases ev <;> simp only [stepOA, detectOpenOA, resolveOA] <;>
    (repeat' split) <;> simp_all

/-- Trace version of `stepOA_resolved`. -/
theorem runOA_resolved (tr : List (Nat × OAEvent)) :
    ∀ s : OpenAppState, ∀ x : Nat × Bool, s.resolved = some x →
      (runOA s tr).resolved = some x := by
  induction tr with
  | nil => intro s x h; exact h
  | cons e tr ih => intro s x h; exact ih _ _ (stepOA_resolved s e x h)

/-- Behaviour of an armed `tryOpenApp` session on a trace without any
foreground-loss signal: it stays unresolved until the timeout timer
fires, and then resolves `false` at the firing time (which the host
guarantees is at least the configured timeout). -/
theorem runTO_nosig_armed (T : Nat) :
    ∀ tr : List (Nat × TOEvent), ValidTO T tr → NoSigTO tr → ∀ i it : Bool,
      (((runTO (armedTO i it) tr).resolved = none) ↔
        (∀ p ∈ tr, p.2 ≠ TOEvent.timeoutFire))
      ∧ (∀ t v, (runTO (armedTO i it) tr).resolved = some (t, v) →
          v = false ∧ T ≤ t) := by
  intro tr
  induction tr with
  | nil =>
    intro _ _ i it
    refine ⟨by simp [runTO, armedTO], ?_⟩
    intro t v h
    simp [runTO, armedTO] at h
  | cons e tr ih =>
    intro hv hn i it
    obtain ⟨t0, ev⟩ := e
    have hvh := hv (t0, ev) (List.mem_cons_self _ _)
    have hvt : ValidTO T tr := fun p hp => hv p (List.mem_cons_of_mem _ hp)
    have hnt : NoSigTO tr := fun p hp => hn p (List.mem_cons_of_mem _ hp)
    rcases hn (t0, ev) (List.mem_cons_self _ _) with h | h | h
    · replace h : ev = TOEvent.timeoutFire := h
      subst h
      have hdone : (stepTO (armedTO i it) (t0, TOEvent.timeoutFire)).done = true := rfl
      have hres : (stepTO (armedTO i it) (t0, TOEvent.timeoutFire)).resolved
          = some (t0, false) := rfl
      have hrun : (runTO (armedTO i it) ((t0, TOEvent.timeoutFire) :: tr)).resolved
          = some (t0, false) :=
        ((runTO_done tr _ hdone).2).trans hres
      refine ⟨?_, ?_⟩
      · rw [hrun]
        constructor
        · intro hcon; exact absurd hcon (by simp)
        · intro hall
          exact absurd rfl (hall (t0, TOEvent.timeoutFire) (List.mem_cons_self _ _))
      · intro t v hs
        rw [hrun] at hs
        have h1 : t0 = t ∧ false = v := by simpa using hs
        obtain ⟨rfl, rfl⟩ := h1
        exact ⟨rfl, hvh.1 rfl⟩
    · replace h : ev = TOEvent.iframeRemoveFire := h
      subst h
      cases it with
      | false =>
        have key : runTO (armedTO i false) ((t0, TOEvent.iframeRemoveFire) :: tr)
            = runTO (armedTO i false) tr := rfl
        obtain ⟨ih1, ih2⟩ := ih hvt hnt i false
        refine ⟨?_, fun t v hs => ih2 t v (by rw [key] at hs; exact hs)⟩
        rw [key, ih1]
        constructor
        · intro hall p hp
          rcases List.mem_cons.mp hp with hp | hp
          · subst hp; simp
          · exact hall p hp
        · intro hall p hp; exact hall p (List.mem_cons_of_mem _ hp)
      | true =>
        have key : runTO (armedTO i true) ((t0, TOEvent.iframeRemoveFire) :: tr)
            = runTO (armedTO false false) tr := rfl
        obtain ⟨ih1, ih2⟩ := ih hvt hnt false false
        refine ⟨?_, fun t v hs => ih2 t v (by rw [key] at hs; exact hs)⟩
        rw [key, ih1]
        constructor
        · intro hall p hp
          rcases List.mem_cons.mp hp with hp | hp
          · subst hp; simp
          · exact hall p hp
        · intro hall p hp; exact hall p (List.mem_cons_of_mem _ hp)
    · replace h : ev = TOEvent.blur false := h
      subst h
      have key : runTO (armedTO i it) ((t0, TOEvent.blur false) :: tr)
          = runTO (armedTO i it) tr := rfl
      obtain ⟨ih1, ih2⟩ := ih hvt hnt i it
      refine ⟨?_, fun t v hs => ih2 t v (by rw [key] at hs; exact hs)⟩
      rw [key, ih1]
      constructor
      · intro hall p hp
        rcases List.mem_cons.mp hp with hp | hp
        · subst hp; simp
        · exact hall p hp
      · intro hall p hp; exact hall p (List.mem_cons_of_mem _ hp)

/-- Behaviour of an armed `openApp` session on a trace without any
foreground-loss signal: `opened` stays false, so the 2500 ms timer
resolves `false` at its firing time; before it fires the session is
unresolved. -/
theorem runOA_nosig_armed :
    ∀ tr : List (Nat × OAEvent), ValidOA tr → NoSigOA tr → ∀ i it : Bool,
      (((runOA (armedOA i it) tr).resolved = none) ↔
        (∀ p ∈ tr, p.2 ≠ OAEvent.timeoutFire))
      ∧ (∀ t v, (runOA (armedOA i it) tr).resolved = some (t, v) →
          v = false ∧ 2500 ≤ t) := by
  intro tr
  induction tr with
  | nil =>
    intro _ _ i it
    refine ⟨by simp [runOA, armedOA], ?_⟩
    intro t v h
    simp [runOA, armedOA] at h
  | cons e tr ih =>
    intro hv hn i it
    obtain ⟨t0, ev⟩ := e
    have hvh := hv (t0, ev) (List.mem_cons_self _ _)
    have hvt : ValidOA tr := fun p hp => hv p (List.mem_cons_of_mem _ hp)
    have hnt : NoSigOA tr := fun p hp => hn p (List.mem_cons_of_mem _ hp)
    rcases hn (t0, ev) (List.mem_cons_self _ _) with h | h | h | h
    · replace h : ev = OAEvent.timeoutFire := h
      subst h
      have hres : (stepOA (armedOA i it) (t0, OAEvent.timeoutFire)).resolved
          = some (t0, false) := rfl
      have hrun : (runOA (armedOA i it) ((t0, OAEvent.timeoutFire) :: tr)).resolved
          = some (t0, false) :=
        runOA_resolved tr _ _ hres
      refine ⟨?_, ?_⟩
      · rw [hrun]
        constructor
        · intro hcon; exact absurd hcon (by simp)
        · intro hall
          exact absurd rfl (hall (t0, OAEvent.timeoutFire) (List.mem_cons_self _ _))
      · intro t v hs
        rw [hrun] at hs
        have h1 : t0 = t ∧ false = v := by simpa using hs
        obtain ⟨rfl, rfl⟩ := h1
        exact ⟨rfl, hvh.1 rfl⟩
    · replace h : ev = OAEvent.iframeRemoveFire := h
      subst h
      cases it with
      | false =>
        have key : runOA (armedOA i false) ((t0, OAEvent.iframeRemoveFire) :: tr)
            = runOA (armedOA i false) tr := rfl
        obtain ⟨ih1, ih2⟩ := ih hvt hnt i false
        refine ⟨?_, fun t v hs => ih2 t v (by rw [key] at hs; exact hs)⟩
        rw [key, ih1]
        constructor
        · intro hall p hp
          rcases List.mem_cons.mp hp with hp | hp
          · subst hp; simp
          · exact hall p hp
        · intro hall p hp; exact hall p (List.mem_cons_of_mem _ hp)
      | true =>
        have key : runOA (armedOA i true) ((t0, OAEvent.iframeRemoveFire) :: tr)
            = runOA (armedOA false false) tr := rfl
        obtain ⟨ih1, ih2⟩ := ih hvt hnt false false
        refine ⟨?_, fun t v hs => ih2 t v (by rw [key] at hs; exact hs)⟩
        rw [key, ih1]
        constructor
        · intro hall p hp
          rcases List.mem_cons.mp hp with hp | hp
          · subst hp; simp
          · exact hall p hp
        · intro hall p hp; exact hall p (List.mem_cons_of_mem _ hp)
    · replace h : ev = OAEvent.visibility false := h
      subst h
      have key : runOA (armedOA i it) ((t0, OAEvent.visibility false) :: tr)
          = runOA (armedOA i it) tr := rfl
      obtain ⟨ih1, ih2⟩ := ih hvt hnt i it
      refine ⟨?_, fun t v hs => ih2 t v (by rw [key] at hs; exact hs)⟩
      rw [key, ih1]
      constructor
      · intro hall p hp
        rcases List.mem_cons.mp hp with hp | hp
        · subst hp; simp
        · exact hall p hp
      · intro hall p hp; exact hall p (List.mem_cons_of_mem _ hp)
    · replace h : ev = OAEvent.pagehide false := h
      subst h
      have key : runOA (armedOA i it) ((t0, OAEvent.pagehide false) :: tr)
          = runOA (armedOA i it) tr := rfl
      obtain ⟨ih1, ih2⟩ := ih hvt hnt i it
      refine ⟨?_, fun t v hs => ih2 t v (by rw [key] at hs; exact hs)⟩
      rw [key, ih1]
      constructor
      · intro hall p hp
        rcases List.mem_cons.mp hp with hp | hp
        · subst hp; simp
        · exact hall p hp
      · intro hall p hp; exact hall p (List.mem_cons_of_mem _ hp)

/-- Claim C3: in a detection session in which no foreground-loss signal
is ever delivered, the session (both `tryOpenApp` with timeout `T` and
`openApp` with its fixed 2500 ms timeout) is unresolved exactly as long
as the timeout timer has not fired, and when it fires — which the host
guarantees happens no earlier than the timeout duration — the session
resolves to verdict `false` at that time. -/
theorem timeout_only_resolves_false_at_timeout (T : Nat) (m a : Bool)
    (tr1 : List (Nat × TOEvent)) (tr2 : List (Nat × OAEvent))
    (hv1 : ValidTO T tr1) (hn1 : NoSigTO tr1)
    (hv2 : ValidOA tr2) (hn2 : NoSigOA tr2) :
    ((((runTO (initTO m) tr1).resolved = none) ↔
        (∀ p ∈ tr1, p.2 ≠ TOEvent.timeoutFire))
      ∧ (∀ t v, (runTO (initTO m) tr1).resolved = some (t, v) → v = false ∧ T ≤ t))
    ∧ ((((runOA (initOA a) tr2).resolved = none) ↔
        (∀ p ∈ tr2, p.2 ≠ OAEvent.timeoutFire))
      ∧ (∀ t v, (runOA (initOA a) tr2).resolved = some (t, v) → v = false ∧ 2500 ≤ t)) := by
  constructor
  · rw [initTO_eq_armedTO]
    exact runTO_nosig_armed T tr1 hv1 hn1 m m
  · rw [initOA_eq_armedOA]
    exact runOA_nosig_armed tr2 hv2 hn2 a a

/-- Witness for claim C3, at timeout 1500 ms with the timer firing at
1500 ms (`tryOpenApp`) and 2600 ms (`openApp`). -/
theorem timeout_only_resolves_false_at_timeout_witness :
    ((((runTO (initTO false) [(1500, TOEvent.timeoutFire)]).resolved = none) ↔
        (∀ p ∈ [(1500, TOEvent.timeoutFire)], p.2 ≠ TOEvent.timeoutFire))
      ∧ (∀ t v, (runTO (initTO false) [(1500, TOEvent.timeoutFire)]).resolved
          = some (t, v) → v = false ∧ 1500 ≤ t))
    ∧ ((((runOA (initOA false) [(2600, OAEvent.timeoutFire)]).resolved = none) ↔
        (∀ p ∈ [(2600, OAEvent.timeoutFire)], p.2 ≠ OAEvent.timeoutFire))
      ∧ (∀ t v, (runOA (initOA false) [(2600, OAEvent.timeoutFire)]).resolved
          = some (t, v) → v = false ∧ 2500 ≤ t)) :=
  timeout_only_resolves_false_at_timeout 1500 false false
    [(1500, TOEvent.timeoutFire)] [(2600, OAEvent.timeoutFire)]
    (by unfold ValidTO; decide) (by unfold NoSigTO; decide)
    (by unfold ValidOA; decide) (by unfold NoSigOA; decide)

/-- Claim C2 counterexample: in `openApp` the pending 2500 ms timer is
NOT cleared when a visibility signal resolves the session to `true` at
300 ms, and the timeout does fire afterwards (observably: it removes the
listeners); only the already-settled promise keeps the outcome intact. -/
theorem openApp_timer_fires_after_resolution :
    ((runOA (initOA false) [(300, OAEvent.visibility true)]).resolved = some (300, true))
    ∧ ((runOA (initOA false) [(300, OAEvent.visibility true)]).timerActive = true)
    ∧ ((runOA (initOA false)
        [(300, OAEvent.visibility true), (2500, OAEvent.timeoutFire)]).timerActive = false)
    ∧ ((runOA (initOA false)
        [(300, OAEvent.visibility true), (2500, OAEvent.timeoutFire)]).listenersAttached
        = false)
    ∧ ((runOA (initOA false)
        [(300, OAEvent.visibility true), (2500, OAEvent.timeoutFire)]).resolved
        = some (300, true)) := by decide

/-- Claim C2 (amended): a foreground-loss signal delivered at time
`t < timeout` to an armed session resolves it to verdict `true` at `t`.
In `tryOpenApp` the cleanup clears the timeout timer, so the timeout
cannot fire afterwards and the outcome is stable under every later
callback.  In `openApp` the timer is not cleared — it stays pending —
but the promise keeps its first value, so no later callback (the late
timer firing included) changes the outcome. -/
theorem signal_wins_race_amended (T t : Nat) (i it ai ait : Bool) (_ht : t < T)
    (tr : List (Nat × TOEvent)) (tr2 : List (Nat × OAEvent)) :
    (((stepTO (armedTO i it) (t, TOEvent.visibilitychange)).resolved = some (t, true))
      ∧ ((stepTO (armedTO i it) (t, TOEvent.pagehide)).resolved = some (t, true))
      ∧ ((stepTO (armedTO i it) (t, TOEvent.blur true)).resolved = some (t, true))
      ∧ ((stepTO (armedTO i it) (t, TOEvent.visibilitychange)).timerActive = false)
      ∧ ((runTO (stepTO (armedTO i it) (t, TOEvent.visibilitychange)) tr).resolved
          = some (t, true)))
    ∧ (((stepOA (armedOA ai ait) (t, OAEvent.visibility true)).resolved = some (t, true))
      ∧ ((stepOA (armedOA ai ait) (t, OAEvent.visibility true)).timerActive = true)
      ∧ ((runOA (stepOA (armedOA ai ait) (t, OAEvent.visibility true)) tr2).resolved
          = some (t, true))) := by
  refine ⟨⟨rfl, rfl, rfl, rfl, ?_⟩, rfl, rfl, ?_⟩
  · exact ((runTO_done tr _ rfl).2).trans rfl
  · exact runOA_resolved tr2 _ _ rfl

/-- Witness for claim C2 (amended), with the signal at 300 ms, timeout
1500 ms, and the late timer deliveries afterwards. -/
theorem signal_wins_race_amended_witness :
    (((stepTO (armedTO false false) (300, TOEvent.visibilitychange)).resolved
        = some (300, true))
      ∧ ((stepTO (armedTO false false) (300, TOEvent.pagehide)).resolved = some (300, true))
      ∧ ((stepTO (armedTO false false) (300, TOEvent.blur true)).resolved = some (300, true))
      ∧ ((stepTO (armedTO false false) (300, TOEvent.visibilitychange)).timerActive = false)
      ∧ ((runTO (stepTO (armedTO false false) (300, TOEvent.visibilitychange))
          [(1500, TOEvent.timeoutFire)]).resolved = some (300, true)))
    ∧ (((stepOA (armedOA false false) (300, OAEvent.visibility true)).resolved
        = some (300, true))
      ∧ ((stepOA (armedOA false false) (300, OAEvent.visibility true)).timerActive = true)
      ∧ ((runOA (stepOA (armedOA false false) (300, OAEvent.visibility true))
          [(2500, OAEvent.timeoutFire)]).resolved = some (300, true))) :=
  signal_wins_race_amended 1500 300 false false false false (by decide)
    [(1500, TOEvent.timeoutFire)] [(2500, OAEvent.timeoutFire)]

/-- Claim C4 counterexample: `tryOpenApp` with the iframe launch method,
resolved by a visibility signal at 300 ms: immediately after resolution
the listeners and the timer are gone, but the injected iframe is still
attached (its removal timer at timeout + 500 has not fired yet). -/
theorem tryOpenApp_iframe_attached_after_resolution :
    ((runTO (initTO true) [(300, TOEvent.visibilitychange)]).resolved = some (300, true))
    ∧ ((runTO (initTO true) [(300, TOEvent.visibilitychange)]).listenersAttached = false)
    ∧ ((runTO (initTO true) [(300, TOEvent.visibilitychange)]).iframeAttached = true) := by
  decide

/-- Claim C4 (amended): immediately after resolution `tryOpenApp` has
removed its listeners and cleared its timeout timer, but the injected
iframe is untouched by resolution — it is detached only when its own
independent removal timer (scheduled at timeout + 500) fires.  In
`openApp` a resolving signal removes nothing: the listeners stay
registered until the 2500 ms timeout callback runs, which removes them. -/
theorem cleanup_schedule_amended (t : Nat) (s : TryOpenState) (u : OpenAppState)
    (hd : s.done = false) (hl : s.listenersAttached = true) (hti : s.timerActive = true)
    (hul : u.listenersAttached = true) (hut : u.timerActive = true) :
    ((stepTO s (t, TOEvent.visibilitychange)).listenersAttached = false
      ∧ (stepTO s (t, TOEvent.visibilitychange)).timerActive = false
      ∧ (stepTO s (t, TOEvent.visibilitychange)).iframeAttached = s.iframeAttached)
    ∧ ((stepTO s (t, TOEvent.timeoutFire)).listenersAttached = false
      ∧ (stepTO s (t, TOEvent.timeoutFire)).timerActive = false
      ∧ (stepTO s (t, TOEvent.timeoutFire)).iframeAttached = s.iframeAttached)
    ∧ (∀ w : TryOpenState, w.iframeTimerActive = true →
        (stepTO w (t, TOEvent.iframeRemoveFire)).iframeAttached = false)
    ∧ ((stepOA u (t, OAEvent.visibility true)).listenersAttached = true
      ∧ (stepOA u (t, OAEvent.timeoutFire)).listenersAttached = false
      ∧ (stepOA u (t, OAEvent.timeoutFire)).timerActive = false) := by
  refine ⟨?_, ?_, ?_, ?_⟩
  · simp [stepTO, finishTO, hd, hl]
  · simp [stepTO, finishTO, hd, hti]
  · intro w hw
    simp [stepTO, hw]
  · refine ⟨?_, ?_, ?_⟩ <;> simp [stepOA, detectOpenOA, resolveOA, hul, hut]

/-- Witness for claim C4 (amended), on freshly armed sessions at 300 ms. -/
theorem cleanup_schedule_amended_witness :
    (((stepTO (armedTO true true) (300, TOEvent.visibilitychange)).listenersAttached = false
      ∧ (stepTO (armedTO true true) (300, TOEvent.visibilitychange)).timerActive = false
      ∧ (stepTO (armedTO true true) (300, TOEvent.visibilitychange)).iframeAttached
        = (armedTO true true).iframeAttached)
    ∧ ((stepTO (armedTO true true) (300, TOEvent.timeoutFire)).listenersAttached = false
      ∧ (stepTO (armedTO true true) (300, TOEvent.timeoutFire)).timerActive = false
      ∧ (stepTO (armedTO true true) (300, TOEvent.timeoutFire)).iframeAttached
        = (armedTO true true).iframeAttached)
    ∧ (∀ w : TryOpenState, w.iframeTimerActive = true →
        (stepTO w (300, TOEvent.iframeRemoveFire)).iframeAttached = false)
    ∧ ((stepOA (armedOA true true) (300, OAEvent.visibility true)).listenersAttached = true
      ∧ (stepOA (armedOA true true) (300, OAEvent.timeoutFire)).listenersAttached = false
      ∧ (stepOA (armedOA true true) (300, OAEvent.timeoutFire)).timerActive = false)) :=
  cleanup_schedule_amended 300 (armedTO true true) (armedOA true true)
    rfl rfl rfl rfl rfl

/-- Claim C10: in `tryOpenApp` a window blur event alone never resolves
the session — a blur delivered while the page is still visible leaves
the session state completely unchanged — while a blur delivered with
`document.visibilityState` hidden resolves an armed session to `true`. -/
theorem blur_only_resolves_when_hidden (s : TryOpenState) (t : Nat) :
    stepTO s (t, TOEvent.blur false) = s
    ∧ (s.done = false → s.listenersAttached = true →
        (stepTO s (t, TOEvent.blur true)).resolved = some (t, true)) := by
  constructor
  · cases h : s.listenersAttached <;> simp [stepTO, h]
  · intro hd hl
    simp [stepTO, hl, finishTO, hd]

/-- Witness for claim C10, on a freshly armed session at 700 ms. -/
theorem blur_only_resolves_when_hidden_witness :
    stepTO (armedTO false false) (700, TOEvent.blur false) = armedTO false false
    ∧ (stepTO (armedTO false false) (700, TOEvent.blur true)).resolved
        = some (700, true) :=
  ⟨(blur_only_resolves_when_hidden (armedTO false false) 700).1,
    (blur_only_resolves_when_hidden (armedTO false false) 700).2 rfl rfl⟩

/-! ### Model of `MobileAppDetector.detectIOSApp` (src/src/main.js, lines 142-181)

This first copy of the detector has no `resolved` flag, and its
hidden-page branch calls `document.body.removeChild(iframe)` without a
`contains` guard (the second copy, lines 640-704, adds both).  We model
the full timer queue: the 2500 ms timeout, the 100 ms wrapper that
starts polling and schedules the 200 ms iframe cleanup, the 100 ms
polling chain, and the cleanup itself.  Timers with equal deadlines run
in scheduling order (the host queue is FIFO). -/

/-- The timer callbacks of one `detectIOSApp` session. -/
inductive IOSTask
  | timeoutFire
  | startPolling
  | pollCheck
  | cleanupIframe
deriving Repr, DecidableEq

/-- Event-loop state of a `detectIOSApp` session.  `crashed` records an
uncaught exception thrown inside a timer callback (the unguarded
`removeChild` on a detached node); `resolved` is the promise value. -/
structure IOSState where
  now : Nat
  pending : List (Nat × IOSTask)
  iframeAttached : Bool
  timeoutActive : Bool
  resolved : Option (Nat × Bool)
  crashed : Bool
deriving Repr, DecidableEq

/-- Pick the pending timer with the smallest deadline, first-scheduled
first among equal deadlines, returning it and the remaining queue. -/
def selectMin : List (Nat × IOSTask) → Option ((Nat × IOSTask) × List (Nat × IOSTask))
  | [] => none
  | x :: xs =>
    match selectMin xs with
    | none => some (x, [])
    | some (y, ys) => if y.1 < x.1 then some (y, x :: ys) else some (x, xs)

/-- The `checkInstallation` poll, run at time `t`: while inside the
detection window, a hidden page clears the timeout and then removes the
iframe — throwing (`crashed`) if the cleanup timer already detached it,
in which case `resolve(true)` is never reached; a visible page schedules
the next poll 100 ms later. -/
def checkInstallation (hidden : Nat → Bool) (t : Nat) (s : IOSState) : IOSState :=
  if t < 2500 then
    if hidden t then
      let s1 := { s with timeoutActive := false }
      if s1.iframeAttached then
        { s1 with iframeAttached := false, resolved := some (t, true) }
      else
        { s1 with crashed := true }
    else
      { s with pending := s.pending ++ [(t + 100, IOSTask.pollCheck)] }
  else s

/-- Run one timer callback at time `t`.  The 100 ms wrapper first calls
`checkInstallation` synchronously and then schedules the iframe cleanup
100 ms later — unless the synchronous call threw. -/
def runIOSTask (hidden : Nat → Bool) (t : Nat) (task : IOSTask) (s : IOSState) : IOSState :=
  match task with
  | .timeoutFire =>
      if s.timeoutActive then
        { s with timeoutActive := false,
                 resolved := match s.resolved with
                   | some r => some r
                   | none => some (t, false) }
      else s
  | .startPolling =>
      let s1 := checkInstallation hidden t s
      if s1.crashed ∧ ¬ s.crashed then s1
      else { s1 with pending := s1.pending ++ [(t + 100, IOSTask.cleanupIframe)] }
  | .pollCheck => checkInstallation hidden t s
  | .cleanupIframe =>
      if s.iframeAttached then { s with iframeAttached := false } else s

/-- One event-loop turn: run the earliest pending timer, if any. -/
def iosTick (hidden : Nat → Bool) (s : IOSState) : IOSState :=
  match selectMin s.pending with
  | none => s
  | some ((due, task), rest) =>
      runIOSTask hidden (max s.now due) task { s with pending := rest, now := max s.now due }

/-- State right after `detectIOSApp` returns its promise: timeout set
for 2500 ms, iframe appended, polling wrapper set for 100 ms. -/
def iosInit : IOSState :=
  { now := 0, pending := [(2500, IOSTask.timeoutFire), (100, IOSTask.startPolling)],
    iframeAttached := true, timeoutActive := true, resolved := none, crashed := false }

/-- Environment in which the native app takes over (the page becomes
hidden) 250 ms after the launch attempt. -/
def hiddenAt250 : Nat → Bool := fun t => decide (250 ≤ t)

/-- The quiescent state the hang scenario reaches: the poll at 300 ms
cleared the timeout, then threw in `removeChild`; the timer queue is
empty and the promise was never settled. -/
def iosHungState : IOSState :=
  { now := 2500, pending := [], iframeAttached := false, timeoutActive := false,
    resolved := none, crashed := true }

/-- Claim C1 (code bug): in the first-copy `detectIOSApp` session where
the page first becomes hidden at 250 ms — after the 200 ms cleanup timer
has already detached the iframe, but before the 300 ms poll — the poll
observes the hidden page, clears the timeout timer, and then throws in
the unguarded `removeChild`, so `resolve` is never called: the session
produces ZERO outcomes instead of exactly one, and there is no done
flag to guard the signal path. -/
theorem detectIOSApp_zero_outcomes :
    (iosTick hiddenAt250)^[5] iosInit = iosHungState
    ∧ iosHungState.resolved = none
    ∧ iosHungState.crashed = true
    ∧ iosHungState.timeoutActive = false
    ∧ iosHungState.pending = [] := by
  refine ⟨by decide, rfl, rfl, rfl, rfl⟩

/-- The `detectApp` outcome record (appName / deviceInfo / timestamp
fields elided: only verdict and method matter to the claims). -/
structure DetectionOutcome where
  isInstalled : Bool
  detectionMethod : String
deriving Repr, DecidableEq

/-- The result `detectApp` returns for an iOS device with a scheme after
`fuel` event-loop turns of the awaited `detectIOSApp` promise: `none`
while the inner promise is unsettled, an outcome with method
"iOS URL Scheme" once it settles. -/
def detectAppIOSResult (hidden : Nat → Bool) (fuel : Nat) : Option DetectionOutcome :=
  match ((iosTick hidden)^[fuel] iosInit).resolved with
  | some (_, v) => some { isInstalled := v, detectionMethod := "iOS URL Scheme" }
  | none => none

/-- Claim C5 (code bug): in the hidden-at-250 ms environment `detectApp`
never resolves at all — after the five event-loop turns the timer queue
is empty and the session is a fixed point, so no number of further turns
ever produces a DetectionOutcome.  (Nothing is thrown to the caller; the
promise simply never settles.) -/
theorem detectApp_never_settles_on_hang :
    ∀ n : Nat, detectAppIOSResult hiddenAt250 n = none := by
  have h5 : (iosTick hiddenAt250)^[5] iosInit = iosHungState := by decide
  have hfix : iosTick hiddenAt250 iosHungState = iosHungState := rfl
  intro n
  rcases Nat.lt_or_ge n 5 with h | h
  · interval_cases n <;> rfl
  · obtain ⟨k, rfl⟩ := Nat.exists_eq_add_of_le h
    unfold detectAppIOSResult
    rw [add_comm, Function.iterate_add_apply, h5, Function.iterate_fixed hfix]
    rfl

/-! ### Model of `MobileAppDetector.detectAndroidApp`
(src/src/main.js, lines 189-246; the lines 712-803 copy differs only in
its delays and logging)

One session with a shared `resolved` flag.  At setup: the 2500 ms main
timeout is started; if a package name is supplied the intent URL is
navigated to immediately and its hidden-check is scheduled 1000 ms later;
if a scheme is supplied a timer is scheduled 500 ms later which — only
if the session has not resolved — injects the iframe and schedules its
own hidden-check-and-cleanup 1000 ms after that. -/

/-- The timer callbacks of one `detectAndroidApp` session. -/
inductive AEvent
  | intentCheck (hidden : Bool)
  | schemeStart
  | schemeCheck (hidden : Bool)
  | mainTimeout
deriving Repr, DecidableEq

/-- Closure state of one `detectAndroidApp` session.  `intentNavTime`
and `iframeCreatedTime` record when each launch attempt side effect
happened; the four `Pending` flags track which timers are still live. -/
structure AndroidState where
  resolved : Bool
  resolveCalls : Nat
  outcome : Option (Nat × Bool)
  timeoutActive : Bool
  intentCheckPending : Bool
  schemeStartPending : Bool
  schemeCheckPending : Bool
  iframeAttached : Bool
  iframeCreatedTime : Option Nat
  intentNavTime : Option Nat
deriving Repr, DecidableEq

/-- The winning resolution to `true`: set the flag, clear the main
timeout, record the outcome. -/
def resolveTrueA (t : Nat) (s : AndroidState) : AndroidState :=
  { s with resolved := true, timeoutActive := false,
           outcome := some (t, true), resolveCalls := s.resolveCalls + 1 }

/-- One timer callback delivered to a `detectAndroidApp` session. -/
def stepA (s : AndroidState) : Nat × AEvent → AndroidState
  | (t, .intentCheck hid) =>
      if s.intentCheckPending then
        let s1 := { s with intentCheckPending := false }
        if ¬ s1.resolved ∧ hid then resolveTrueA t s1 else s1
      else s
  | (t, .schemeStart) =>
      if s.schemeStartPending then
        let s1 := { s with schemeStartPending := false }
        if ¬ s1.resolved then
          { s1 with iframeAttached := true, iframeCreatedTime := some t,
                    schemeCheckPending := true }
        else s1
      else s
  | (t, .schemeCheck hid) =>
      if s.schemeCheckPending then
        let s1 := { s with schemeCheckPending := false }
        let s2 := if ¬ s1.resolved ∧ hid then resolveTrueA t s1 else s1
        if s2.iframeAttached then { s2 with iframeAttached := false } else s2
      else s
  | (t, .mainTimeout) =>
      if s.timeoutActive then
        let s1 := { s with timeoutActive := false }
        if ¬ s1.resolved then
          { s1 with resolved := true, outcome := some (t, false),
                    resolveCalls := s1.resolveCalls + 1 }
        else s1
      else s

/-- State right after `detectAndroidApp` returns its promise, given
whether a package name and/or a scheme were supplied.  The intent
navigation is the only side effect performed synchronously (time 0). -/
def initA (pkg scheme : Bool) : AndroidState :=
  { resolved := false, resolveCalls := 0, outcome := none, timeoutActive := true,
    intentCheckPending := pkg, schemeStartPending := scheme,
    schemeCheckPending := false, iframeAttached := false,
    iframeCreatedTime := none, intentNavTime := if pkg then some 0 else none }

/-- Deliver a whole trace of timer callbacks to the session. -/
def runA : AndroidState → List (Nat × AEvent) → AndroidState :=
  List.foldl stepA

/-- The scheduled delay of each timer callback. -/
def dueA : AEvent → Nat
  | .intentCheck _ => 1000
  | .schemeStart => 500
  | .schemeCheck _ => 1500
  | .mainTimeout => 2500

/-- Host timing guarantee: no timer fires before its scheduled delay. -/
def ValidA (tr : List (Nat × AEvent)) : Prop :=
  ∀ p ∈ tr, dueA p.2 ≤ p.1

/-- The single-resolution bookkeeping invariant of the session. -/
def callsInvA (s : AndroidState) : Prop :=
  s.resolveCalls = (if s.resolved then 1 else 0) ∧ (s.outcome.isSome ↔ s.resolved = true)

/-- Every timer callback preserves the single-resolution invariant. -/
theorem stepA_callsInv (s : AndroidState) (e : Nat × AEvent) (h : callsInvA s) :
    callsInvA (stepA s e) := by
  obtain ⟨h1, h2⟩ := h
  obtain ⟨t, ev⟩ := e
  cases ev <;> simp only [stepA, resolveTrueA] <;> (repeat' split) <;>
    constructor <;> simp_all

/-- Once resolved, no later timer callback changes the outcome, resolves
again, or un-resolves the session. -/
theorem stepA_resolved_frozen (s : AndroidState) (e : Nat × AEvent)
    (h : s.resolved = true) :
    (stepA s e).resolved = true ∧ (stepA s e).outcome = s.outcome
    ∧ (stepA s e).resolveCalls = s.resolveCalls := by
  obtain ⟨t, ev⟩ := e
  cases ev <;> simp only [stepA, resolveTrueA] <;> (repeat' split) <;> simp_all

/-- Trace version of the invariant preservation. -/
theorem runA_callsInv (tr : List (Nat × AEvent)) :
    ∀ s : AndroidState, callsInvA s → callsInvA (runA s tr) := by
  induction tr with
  | nil => intro s h; exact h
  | cons e tr ih => intro s h; exact ih _ (stepA_callsInv s e h)

/-- The iframe creation time only ever records times of valid
scheme-probe firings, which are at 500 ms or later. -/
theorem runA_iframeTime (tr : List (Nat × AEvent)) :
    ∀ s : AndroidState, ValidA tr →
      (∀ t, s.iframeCreatedTime = some t → 500 ≤ t) →
      (∀ t, (runA s tr).iframeCreatedTime = some t → 500 ≤ t) := by
  induction tr with
  | nil => intro s _ h; exact h
  | cons e tr ih =>
    intro s hv h
    have hvt : ValidA tr := fun p hp => hv p (List.mem_cons_of_mem _ hp)
    refine ih (stepA s e) hvt ?_
    obtain ⟨t0, ev⟩ := e
    have hdue := hv (t0, ev) (List.mem_cons_self _ _)
    intro t ht
    cases ev <;> simp only [stepA, resolveTrueA] at ht <;> (repeat' split at ht) <;>
      first
        | exact h t (by simpa using ht)
        | (simp only [dueA] at hdue
           have heq : t0 = t := by simpa using ht
           omega)

/-- Claim C8 counterexample: with both a package and a scheme, the
scheme probe injects its iframe at 500 ms and schedules its check; the
intent check then wins at 1000 ms.  Immediately after that resolution
the loser's in-flight timer is still pending — it was NOT cleared — and
it does fire at 1500 ms (observably: it detaches the iframe), merely
declining to resolve again because of the shared `resolved` flag. -/
theorem android_loser_timer_not_cleared :
    ((runA (initA true true)
        [(500, AEvent.schemeStart), (1000, AEvent.intentCheck true)]).outcome
      = some (1000, true))
    ∧ ((runA (initA true true)
        [(500, AEvent.schemeStart), (1000, AEvent.intentCheck true)]).schemeCheckPending
      = true)
    ∧ ((runA (initA true true)
        [(500, AEvent.schemeStart), (1000, AEvent.intentCheck true)]).iframeAttached
      = true)
    ∧ ((runA (initA true true)
        [(500, AEvent.schemeStart), (1000, AEvent.intentCheck true),
         (1500, AEvent.schemeCheck true)]).iframeAttached = false)
    ∧ ((runA (initA true true)
        [(500, AEvent.schemeStart), (1000, AEvent.intentCheck true),
         (1500, AEvent.schemeCheck true)]).resolveCalls = 1)
    ∧ ((runA (initA true true)
        [(500, AEvent.schemeStart), (1000, AEvent.intentCheck true),
         (1500, AEvent.schemeCheck true)]).outcome = some (1000, true)) := by
  decide

/-- Claim C8 (amended): on the secondary Android path the intent URL is
attempted first — its navigation is the only synchronous side effect, at
time 0 — and the scheme probe runs only after its 500 ms delay (any
recorded iframe injection time is at least 500 ms) and only if the
session has not already resolved (a `schemeStart` firing on a resolved
session changes nothing).  Both attempts race into one single-resolution
session: over every valid schedule, `resolve` runs at most once.  The
losing attempt's in-flight timers are NOT cleared, however: they stay
pending and fire, and only the shared `resolved` flag makes their firing
leave the outcome unchanged (only the main timeout timer is cleared by a
winning resolution). -/
theorem android_two_attempts_one_session (pkg scheme : Bool)
    (tr : List (Nat × AEvent)) (hv : ValidA tr) :
    ((runA (initA pkg scheme) tr).resolveCalls ≤ 1)
    ∧ ((initA pkg scheme).intentNavTime = if pkg then some 0 else none)
    ∧ ((initA pkg scheme).iframeCreatedTime = none)
    ∧ (∀ t, (runA (initA pkg scheme) tr).iframeCreatedTime = some t → 500 ≤ t)
    ∧ (∀ s : AndroidState, ∀ t, s.resolved = true →
        (stepA s (t, AEvent.schemeStart)).iframeAttached = s.iframeAttached
        ∧ (stepA s (t, AEvent.schemeStart)).iframeCreatedTime = s.iframeCreatedTime
        ∧ (stepA s (t, AEvent.schemeStart)).schemeCheckPending = s.schemeCheckPending)
    ∧ (∀ s : AndroidState, ∀ e : Nat × AEvent, s.resolved = true →
        (stepA s e).outcome = s.outcome ∧ (stepA s e).resolveCalls = s.resolveCalls) := by
  refine ⟨?_, rfl, rfl, ?_, ?_, ?_⟩
  · have hinv : callsInvA (initA pkg scheme) := by
      constructor <;> simp [initA]
    have := (runA_callsInv tr (initA pkg scheme) hinv).1
    rw [this]
    split <;> omega
  · exact runA_iframeTime tr (initA pkg scheme) hv (by simp [initA])
  · intro s t hs
    refine ⟨?_, ?_, ?_⟩ <;>
      (simp only [stepA, resolveTrueA]; (repeat' split) <;> simp_all)
  · intro s e hs
    have h := stepA_resolved_frozen s e hs
    exact ⟨h.2.1, h.2.2⟩

/-- Witness for claim C8 (amended): the full intent-then-scheme race in
which the page goes hidden just before the 1000 ms intent check, the
loser fires at 1500 ms, and the cleared main timeout never runs. -/
theorem android_two_attempts_one_session_witness :
    ((runA (initA true true)
        [(500, AEvent.schemeStart), (1000, AEvent.intentCheck true),
         (1500, AEvent.schemeCheck true)]).resolveCalls ≤ 1)
    ∧ ((initA true true).intentNavTime = if true then some 0 else none)
    ∧ ((initA true true).iframeCreatedTime = none)
    ∧ (∀ t, (runA (initA true true)
        [(500, AEvent.schemeStart), (1000, AEvent.intentCheck true),
         (1500, AEvent.schemeCheck true)]).iframeCreatedTime = some t → 500 ≤ t)
    ∧ (∀ s : AndroidState, ∀ t, s.resolved = true →
        (stepA s (t, AEvent.schemeStart)).iframeAttached = s.iframeAttached
        ∧ (stepA s (t, AEvent.schemeStart)).iframeCreatedTime = s.iframeCreatedTime
        ∧ (stepA s (t, AEvent.schemeStart)).schemeCheckPending = s.schemeCheckPending)
    ∧ (∀ s : AndroidState, ∀ e : Nat × AEvent, s.resolved = true →
        (stepA s e).outcome = s.outcome ∧ (stepA s e).resolveCalls = s.resolveCalls) :=
  android_two_attempts_one_session true true
    [(500, AEvent.schemeStart), (1000, AEvent.intentCheck true),
     (1500, AEvent.schemeCheck true)]
    (by unfold ValidA; decide)

/-! ### Model of `MobileAppDetector.detectApp` platform dispatch and
`getDeviceInfo` (src/src/main.js, lines 92-135 and 291-306) -/

/-- ASCII lowercasing of one character, as `toLowerCase` acts on the
ASCII user-agent strings the detector matches against. -/
def lowerChar (c : Char) : Char :=
  if 65 ≤ c.toNat ∧ c.toNat ≤ 90 then Char.ofNat (c.toNat + 32) else c

/-- Does `hay` start with `needle`? -/
def leadsWith : List Char → List Char → Bool
  | [], _ => true
  | _ :: _, [] => false
  | a :: as, b :: bs => a == b && leadsWith as bs

/-- Does `hay` contain `needle` as a contiguous substring?  This is the
regex-free core of the `/pattern/.test(userAgent)` checks. -/
def hasSub (needle : List Char) : List Char → Bool
  | [] => needle.isEmpty
  | b :: bs => leadsWith needle (b :: bs) || hasSub needle bs

/-- Substring test on the lowercased user agent. -/
def uaHas (ua pat : String) : Bool :=
  hasSub pat.data (ua.data.map lowerChar)

/-- The device flags relevant to dispatch. -/
structure DeviceInfo where
  isIOS : Bool
  isAndroid : Bool
  isMobile : Bool
deriving Repr, DecidableEq

/-- `getDeviceInfo`: regex tests over the lowercased user agent. -/
def getDeviceInfo (ua : String) : DeviceInfo :=
  { isIOS := uaHas ua "iphone" || uaHas ua "ipad" || uaHas ua "ipod",
    isAndroid := uaHas ua "android",
    isMobile := uaHas ua "mobile" || uaHas ua "android" || uaHas ua "iphone" ||
      uaHas ua "ipad" || uaHas ua "ipod" || uaHas ua "blackberry" ||
      uaHas ua "iemobile" || uaHas ua "opera mini" }

/-- The per-app configuration read by `detectApp`; a missing field is
the empty string (falsy, exactly as `undefined` is in the source). -/
structure AppConfig where
  appName : String
  iosScheme : String
  androidScheme : String
  androidPackage : String
  fallbackUrl : String
deriving Repr, DecidableEq

/-- Which detection strategy `detectApp` selects. -/
inductive Dispatch
  | iosPath (scheme : String)
  | androidPath (scheme pkg : String)
  | genericPath (scheme : String)
  | desktop
deriving Repr, DecidableEq

/-- The `detectApp` dispatch chain: iOS URL scheme first, then Android
intent/scheme, then generic mobile with `iosScheme || androidScheme`,
else the desktop/unsupported branch. -/
def detectAppDispatch (d : DeviceInfo) (c : AppConfig) : Dispatch :=
  if d.isIOS = true ∧ c.iosScheme ≠ "" then .iosPath c.iosScheme
  else if d.isAndroid = true ∧ (c.androidScheme ≠ "" ∨ c.androidPackage ≠ "") then
    .androidPath c.androidScheme c.androidPackage
  else if d.isMobile = true then
    .genericPath (if c.iosScheme ≠ "" then c.iosScheme else c.androidScheme)
  else .desktop

/-- The `detectionMethod` label `detectApp` attaches to each branch. -/
def detectionMethodOf : Dispatch → String
  | .iosPath _ => "iOS URL Scheme"
  | .androidPath _ _ => "Android Intent/Scheme"
  | .genericPath _ => "Generic Mobile Detection"
  | .desktop => "Desktop/Unsupported"

/-- Whether the selected strategy performs a launch-attempt side effect:
the iOS path always injects an iframe; the Android path always either
navigates to the intent URL or injects an iframe (its guard requires a
package or a scheme); `detectGenericMobile` clicks a link unless its
scheme is empty, in which case it returns `false` synchronously; the
desktop branch does nothing. -/
def attemptPerformed : Dispatch → Bool
  | .iosPath _ => true
  | .androidPath _ _ => true
  | .genericPath s => s ≠ ""
  | .desktop => false

/-- The verdict available synchronously, without any race: the desktop
branch and `detectGenericMobile` with an empty scheme resolve `false`
immediately; every other branch races signals against a timeout. -/
def immediateVerdict : Dispatch → Option Bool
  | .genericPath s => if s = "" then some false else none
  | .desktop => some false
  | _ => none

/-- Claim C6 counterexample: an iOS device (user agent "iphone") with an
empty `iosScheme` but a non-empty `androidScheme` has no scheme for the
current platform, yet `detectApp` does NOT resolve immediately with
`false`: it falls through to generic mobile detection with the Android
scheme and performs a launch attempt (link click). -/
theorem ios_missing_scheme_still_attempts :
    (detectAppDispatch (getDeviceInfo "iphone")
      { appName := "x", iosScheme := "", androidScheme := "app://",
        androidPackage := "", fallbackUrl := "" } = Dispatch.genericPath "app://")
    ∧ (attemptPerformed (detectAppDispatch (getDeviceInfo "iphone")
        { appName := "x", iosScheme := "", androidScheme := "app://",
          androidPackage := "", fallbackUrl := "" }) = true)
    ∧ (immediateVerdict (detectAppDispatch (getDeviceInfo "iphone")
        { appName := "x", iosScheme := "", androidScheme := "app://",
          androidPackage := "", fallbackUrl := "" }) = none)
    ∧ ((getDeviceInfo "iphone").isIOS = true) := by
  decide

/-- Claim C6 (amended): if no launch identifier is supplied at all —
`iosScheme`, `androidScheme` and `androidPackage` all empty — then for
every device `detectApp` selects a branch that performs no
launch-attempt side effect and resolves immediately with verdict
`false`.  (If another platform's scheme is supplied, `detectApp` instead
falls through to generic mobile detection and attempts that scheme.) -/
theorem empty_config_immediate_false (c : AppConfig) (d : DeviceInfo)
    (h1 : c.iosScheme = "") (h2 : c.androidScheme = "") (h3 : c.androidPackage = "") :
    attemptPerformed (detectAppDispatch d c) = false
    ∧ immediateVerdict (detectAppDispatch d c) = some false := by
  unfold detectAppDispatch
  simp only [h1, h2, h3, ne_eq]
  constructor <;> (repeat' split) <;> simp_all [attemptPerformed, immediateVerdict]

/-- Witness for claim C6 (amended): a fully empty configuration on an
iOS device. -/
theorem empty_config_immediate_false_witness :
    attemptPerformed (detectAppDispatch (getDeviceInfo "iphone")
      { appName := "x", iosScheme := "", androidScheme := "",
        androidPackage := "", fallbackUrl := "" }) = false
    ∧ immediateVerdict (detectAppDispatch (getDeviceInfo "iphone")
      { appName := "x", iosScheme := "", androidScheme := "",
        androidPackage := "", fallbackUrl := "" }) = some false :=
  empty_config_immediate_false _ (getDeviceInfo "iphone") rfl rfl rfl

/-- Claim C9: platform dispatch gives iOS strict precedence — whenever
the user agent satisfies both the iOS and the Android predicate and a
non-empty `iosScheme` is configured, `detectApp` takes the iOS URL
scheme path (method "iOS URL Scheme"), never the Android intent/scheme
path. -/
theorem ios_precedence_over_android (ua : String) (c : AppConfig)
    (h1 : (getDeviceInfo ua).isIOS = true)
    (_h2 : (getDeviceInfo ua).isAndroid = true)
    (h3 : c.iosScheme ≠ "") :
    detectAppDispatch (getDeviceInfo ua) c = Dispatch.iosPath c.iosScheme
    ∧ detectionMethodOf (detectAppDispatch (getDeviceInfo ua) c) = "iOS URL Scheme"
    ∧ ∀ s p, detectAppDispatch (getDeviceInfo ua) c ≠ Dispatch.androidPath s p := by
  have hsel : detectAppDispatch (getDeviceInfo ua) c = Dispatch.iosPath c.iosScheme := by
    unfold detectAppDispatch
    simp [h1, h3]
  refine ⟨hsel, ?_, ?_⟩
  · rw [hsel]; rfl
  · intro s p
    rw [hsel]
    intro hcon
    exact Dispatch.noConfusion hcon

/-- Witness for claim C9: a (hypothetical but regex-matching) user agent
containing both "iphone" and "android", with a WhatsApp-like config. -/
theorem ios_precedence_over_android_witness :
    detectAppDispatch (getDeviceInfo "Mozilla iPhone Android")
      { appName := "WhatsApp", iosScheme := "whatsapp://",
        androidScheme := "whatsapp://send", androidPackage := "com.whatsapp",
        fallbackUrl := "https://web.whatsapp.com" }
      = Dispatch.iosPath "whatsapp://"
    ∧ detectionMethodOf (detectAppDispatch (getDeviceInfo "Mozilla iPhone Android")
        { appName := "WhatsApp", iosScheme := "whatsapp://",
          androidScheme := "whatsapp://send", androidPackage := "com.whatsapp",
          fallbackUrl := "https://web.whatsapp.com" }) = "iOS URL Scheme"
    ∧ ∀ s p, detectAppDispatch (getDeviceInfo "Mozilla iPhone Android")
        { appName := "WhatsApp", iosScheme := "whatsapp://",
          androidScheme := "whatsapp://send", androidPackage := "com.whatsapp",
          fallbackUrl := "https://web.whatsapp.com" } ≠ Dispatch.androidPath s p :=
  ios_precedence_over_android "Mozilla iPhone Android"
    { appName := "WhatsApp", iosScheme := "whatsapp://",
      androidScheme := "whatsapp://send", androidPackage := "com.whatsapp",
      fallbackUrl := "https://web.whatsapp.com" }
    (by decide) (by decide) (by decide)

/-! ### Model of the redirect policy (src/unnamed/part_001:
`redirectToStore` lines 67-70 and `main` lines 89-107) -/

/-- The store-page configuration of the production page (`CONFIG`). -/
structure SiteConfig where
  deepLink : String
  androidStore : String
  iosStore : String
deriving Repr, DecidableEq

/-- `redirectToStore`: pick the store URL by platform. -/
def redirectToStore (isIOS : Bool) (cfg : SiteConfig) : String :=
  if isIOS then cfg.iosStore else cfg.androidStore

/-- The externally observable result of one run of `main`. -/
structure MainOutcome where
  ranDetection : Bool
  navTarget : Option String
  showedInfo : Bool
deriving Repr, DecidableEq

/-- The `main` flow: on a non-mobile platform show the informational
message and return before any detection; on mobile run `openApp` and,
if the verdict is false, schedule `redirectToStore` (also wired to the
store button); if the verdict is true, do nothing further. -/
def mainFlow (isIOS isAndroid : Bool) (cfg : SiteConfig) (appOpened : Bool) :
    MainOutcome :=
  if isIOS || isAndroid then
    if appOpened then { ranDetection := true, navTarget := none, showedInfo := false }
    else { ranDetection := true, navTarget := some (redirectToStore isIOS cfg),
           showedInfo := false }
  else { ranDetection := false, navTarget := none, showedInfo := true }

/-- Claim C7: the redirect policy performs no further navigation when
the verdict is true; when the verdict is false it navigates to the store
URL selected by platform (iosStore on iOS, androidStore on Android); and
on an unsupported/desktop platform it skips detection entirely and
renders an informational state with no navigation. -/
theorem redirect_policy_correct (cfg : SiteConfig) :
    (∀ isIOS isAndroid : Bool, (isIOS || isAndroid) = true →
      (mainFlow isIOS isAndroid cfg true).navTarget = none
      ∧ (mainFlow isIOS isAndroid cfg true).ranDetection = true)
    ∧ (∀ isAndroid : Bool,
        (mainFlow true isAndroid cfg false).navTarget = some cfg.iosStore)
    ∧ ((mainFlow false true cfg false).navTarget = some cfg.androidStore)
    ∧ (∀ appOpened : Bool, mainFlow false false cfg appOpened
        = { ranDetection := false, navTarget := none, showedInfo := true }) := by
  refine ⟨?_, ?_, rfl, ?_⟩
  · intro isIOS isAndroid h
    constructor <;> simp [mainFlow, h]
  · intro isAndroid
    simp [mainFlow, redirectToStore]
  · intro appOpened
    simp [mainFlow]

/-- Witness for claim C7, at the Nar store configuration. -/
theorem redirect_policy_correct_witness :
    (∀ isIOS isAndroid : Bool, (isIOS || isAndroid) = true →
      (mainFlow isIOS isAndroid
        { deepLink := "az.azerconnect.nar://",
          androidStore := "https://play.google.com/store/apps/details?id=az.azerconnect.nar",
          iosStore := "https://apps.apple.com/us/app/nar/id6444889671" } true).navTarget
        = none
      ∧ (mainFlow isIOS isAndroid
        { deepLink := "az.azerconnect.nar://",
          androidStore := "https://play.google.com/store/apps/details?id=az.azerconnect.nar",
          iosStore := "https://apps.apple.com/us/app/nar/id6444889671" } true).ranDetection
        = true)
    ∧ (∀ isAndroid : Bool,
        (mainFlow true isAndroid
          { deepLink := "az.azerconnect.nar://",
            androidStore := "https://play.google.com/store/apps/details?id=az.azerconnect.nar",
            iosStore := "https://apps.apple.com/us/app/nar/id6444889671" } false).navTarget
          = some "https://apps.apple.com/us/app/nar/id6444889671")
    ∧ ((mainFlow false true
        { deepLink := "az.azerconnect.nar://",
          androidStore := "https://play.google.com/store/apps/details?id=az.azerconnect.nar",
          iosStore := "https://apps.apple.com/us/app/nar/id6444889671" } false).navTarget
        = some "https://play.google.com/store/apps/details?id=az.azerconnect.nar")
    ∧ (∀ appOpened : Bool, mainFlow false false
        { deepLink := "az.azerconnect.nar://",
          androidStore := "https://play.google.com/store/apps/details?id=az.azerconnect.nar",
          iosStore := "https://apps.apple.com/us/app/nar/id6444889671" } appOpened
        = { ranDetection := false, navTarget := none, showedInfo := true }) :=
  redirect_policy_correct
    { deepLink := "az.azerconnect.nar://",
      androidStore := "https://play.google.com/store/apps/details?id=az.azerconnect.nar",
      iosStore := "https://apps.apple.com/us/app/nar/id6444889671" }
